import Mathlib

/-!
Shallow embedding of the students CRUD handlers of `src/server.js`.

The repository source contains two variants of the server in one file,
separated by a document marker; where the variants differ behaviourally the
embedding defines both (suffix `1` for the first variant, `2` for the
second).

Modelling conventions:
- JSON field values are modelled by `Value` (strings and integer numbers;
  these cover every field the handlers touch).
- A JS object is an association list `Obj` with first-match lookup;
  `Obj.spread a b` models the object-literal spread `{...a, ...b}` with the
  entries of `b` winning on key collision, matching JS key order.
- The lowdb document `db.data` is `DB`; its `students` key may be absent
  (`none`), as in a fresh store.
- Each handler is a pure function from the current store document and the
  request data to an `HOut`: the responses delivered to the client in order
  (`sent`), the store document after the handler (`disk`, reflecting what
  `db.write`/`db.update` persisted), and counts of `db.read` calls and of
  persisting flushes.
- The nondeterministic inputs `uuidv4()` and `new Date().toISOString()` are
  injected as the parameters `uuid` and `now`.
-/

/-- JSON field value: a string or an integer number (JS numbers are modelled
at integer precision, which covers every value the handlers manipulate). -/
inductive Value where
  | str : String → Value
  | num : Int → Value
deriving DecidableEq, Repr

/-- JS `String(v)` conversion for the modelled values. -/
def Value.toJsString : Value → String
  | .str s => s
  | .num n => toString n

/-- JS `String(x)` where `x` may be `undefined` (a missing object field). -/
def jsStringOfOpt : Option Value → String
  | none => "undefined"
  | some v => v.toJsString

/-- JS truthiness of the modelled values: the empty string and zero are
falsy, everything else is truthy. -/
def Value.truthy : Value → Bool
  | .str s => !(s == "")
  | .num n => !(n == 0)

/-- JS object: association list of fields with first-match lookup. -/
abbrev Obj := List (String × Value)

/-- Field lookup `o.k`, `none` when the key is absent (JS `undefined`). -/
def Obj.get (o : Obj) (k : String) : Option Value :=
  (o.find? (fun p => p.1 == k)).map (fun p => p.2)

/-- Whether the object has the key. -/
def Obj.hasKey (o : Obj) (k : String) : Bool :=
  (o.find? (fun p => p.1 == k)).isSome

/-- JS spread `{...a, ...b}`: the keys of `a` in order, each taking the value
from `b` when `b` also has the key, followed by the entries of `b` whose keys
are absent from `a`, in order. -/
def Obj.spread (a b : Obj) : Obj :=
  a.map (fun p => (p.1, (Obj.get b p.1).getD p.2)) ++
    b.filter (fun p => !(Obj.hasKey a p.1))

/-- Object literal `{...o, k: v}`: a spread followed by one explicit
property, which wins over any `k` entry of `o`. -/
def Obj.setKey (o : Obj) (k : String) (v : Value) : Obj :=
  Obj.spread o [(k, v)]

/-- HTTP responses the handlers produce, by body shape:
`{success:true, data}` with status 200 or 201, `{success:true, count, data}`,
and the failure bodies with status 400, 404 and 500. The diagnostic `error`
field of 500 bodies is response metadata no claim inspects and is not
modelled. -/
inductive Resp where
  | okData : Obj → Resp
  | okList : Nat → List Obj → Resp
  | created : Obj → Resp
  | badRequest : String → Resp
  | notFound : String → Resp
  | serverError : String → Resp
deriving DecidableEq, Repr

/-- HTTP status code of a response. -/
def Resp.status : Resp → Nat
  | .okData _ => 200
  | .okList _ _ => 200
  | .created _ => 201
  | .badRequest _ => 400
  | .notFound _ => 404
  | .serverError _ => 500

/-- The lowdb document `db.data`: a single top-level `students` key mapping
to an array of student objects, possibly absent. -/
structure DB where
  students? : Option (List Obj)
deriving DecidableEq, Repr

/-- Observable outcome of one handler invocation. -/
structure HOut where
  sent : List Resp
  disk : DB
  reads : Nat
  writes : Nat
deriving DecidableEq, Repr

/-- The id comparison `String(s.id) === String(id)` used by the get-by-id,
update and delete handlers; the request id arrives as a path string, so
`String(id)` is `id` itself. -/
def matchesId (s : Obj) (id : String) : Bool :=
  jsStringOfOpt (Obj.get s "id") == id

/-- GET `/api/students` (both variants are textually identical): `db.read()`,
then `db.data.students || []`, then 200 with count and data. A missing
students key is replaced by the empty array, so the route succeeds on it. -/
def listStudents (db : DB) : HOut :=
  let students := db.students?.getD []
  ⟨[.okList students.length students], db, 1, 0⟩

/-- GET `/api/students/:id`. Both variants `db.read()` and linearly search
with the string-normalised id comparison; 404 when no entry matches,
otherwise 200 with the found entity. When the loaded document has no
students array, `.find` on `undefined` throws and the catch answers 500.
In the first variant only, dead statements after the committed 200 response
evaluate the unbound name `item`; the caught error's attempted second
response cannot be delivered after the headers are sent, so it has no
client-visible or store effect and is not modelled. -/
def getById (db : DB) (id : String) : HOut :=
  match db.students? with
  | none => ⟨[.serverError "Error retrieving student"], db, 1, 0⟩
  | some l =>
    match l.find? (fun s => matchesId s id) with
    | none => ⟨[.notFound "Student not found"], db, 1, 0⟩
    | some s => ⟨[.okData s], db, 1, 0⟩

/-- POST `/api/students`, first variant. Validation of `name`/`email`
truthiness precedes any store access (no `db.read` happens in this handler at
all). On success the new student holds exactly `id`, `name`, `email` and
`createdAt`, and is appended by the `db.update` mutator (one flush). When
the loaded document has no students array, `students.push` inside the
mutator throws before the flush and the catch answers 500. -/
def createStudent1 (db : DB) (body : Obj) (uuid : String) (now : String) : HOut :=
  match Obj.get body "name", Obj.get body "email" with
  | some nv, some ev =>
    if nv.truthy && ev.truthy then
      match db.students? with
      | none => ⟨[.serverError "Error creating students"], db, 0, 0⟩
      | some l =>
        let newStudent : Obj :=
          [("id", .str uuid), ("name", nv), ("email", ev), ("createdAt", .str now)]
        ⟨[.created newStudent], ⟨some (l ++ [newStudent])⟩, 0, 1⟩
    else ⟨[.badRequest "Name and email are required"], db, 0, 0⟩
  | _, _ => ⟨[.badRequest "Name and email are required"], db, 0, 0⟩

/-- POST `/api/students`, second variant: identical to the first except for
the catch-branch message string. -/
def createStudent2 (db : DB) (body : Obj) (uuid : String) (now : String) : HOut :=
  match Obj.get body "name", Obj.get body "email" with
  | some nv, some ev =>
    if nv.truthy && ev.truthy then
      match db.students? with
      | none => ⟨[.serverError "Error creating student"], db, 0, 0⟩
      | some l =>
        let newStudent : Obj :=
          [("id", .str uuid), ("name", nv), ("email", ev), ("createdAt", .str now)]
        ⟨[.created newStudent], ⟨some (l ++ [newStudent])⟩, 0, 1⟩
    else ⟨[.badRequest "Name and email are required"], db, 0, 0⟩
  | _, _ => ⟨[.badRequest "Name and email are required"], db, 0, 0⟩

/-- PUT `/api/students/:id`, first variant. `db.read()`, `findIndex` with the
string-normalised comparison, 404 when absent; otherwise the entry is
replaced by `{...old, ...changes, updatedAt: now}` and `db.write()` persists
the whole document (one flush). The merged entity is also the response body.
When the loaded document has no students array, `.findIndex` on `undefined`
throws and the catch answers 500. -/
def updateStudent1 (db : DB) (id : String) (changes : Obj) (now : String) : HOut :=
  match db.students? with
  | none => ⟨[.serverError "Error updating students"], db, 1, 0⟩
  | some l =>
    match l.findIdx? (fun s => matchesId s id) with
    | none => ⟨[.notFound "Student not found"], db, 1, 0⟩
    | some i =>
      let old := (l[i]?).getD []
      let merged := Obj.setKey (Obj.spread old changes) "updatedAt" (.str now)
      ⟨[.okData merged], ⟨some (l.set i merged)⟩, 1, 1⟩

/-- PUT `/api/students/:id`, second variant: identical to the first except
for the catch-branch message string. -/
def updateStudent2 (db : DB) (id : String) (changes : Obj) (now : String) : HOut :=
  match db.students? with
  | none => ⟨[.serverError "Error updating student"], db, 1, 0⟩
  | some l =>
    match l.findIdx? (fun s => matchesId s id) with
    | none => ⟨[.notFound "Student not found"], db, 1, 0⟩
    | some i =>
      let old := (l[i]?).getD []
      let merged := Obj.setKey (Obj.spread old changes) "updatedAt" (.str now)
      ⟨[.okData merged], ⟨some (l.set i merged)⟩, 1, 1⟩

/-- DELETE `/api/students/:id`, first variant. `db.read()`, `findIndex`,
404 when absent; otherwise the `db.update` mutator splices out the entry at
the found index and flushes. The success response then evaluates the unbound
name `deletedItem` (the captured entity was bound to `removedStudent`), so
the object literal throws before `res.status(200).json` fires and the catch
block answers 500 instead; the deletion is nevertheless persisted. When the
loaded document has no students array, `.findIndex` on `undefined` throws
and the catch answers 500 without any flush. -/
def deleteStudent1 (db : DB) (id : String) : HOut :=
  match db.students? with
  | none => ⟨[.serverError "Error deleting resource"], db, 1, 0⟩
  | some l =>
    match l.findIdx? (fun s => matchesId s id) with
    | none => ⟨[.notFound "Student not found"], db, 1, 0⟩
    | some i =>
      ⟨[.serverError "Error deleting resource"], ⟨some (l.eraseIdx i)⟩, 1, 1⟩

/-- DELETE `/api/students/:id`, second variant: splice inside `db.update`
(one flush), then 200 with the removed entity `students.splice(index, 1)[0]`. -/
def deleteStudent2 (db : DB) (id : String) : HOut :=
  match db.students? with
  | none => ⟨[.serverError "Error deleting student"], db, 1, 0⟩
  | some l =>
    match l.findIdx? (fun s => matchesId s id) with
    | none => ⟨[.notFound "Student not found"], db, 1, 0⟩
    | some i =>
      ⟨[.okData ((l[i]?).getD [])], ⟨some (l.eraseIdx i)⟩, 1, 1⟩

example :
    (getById ⟨some [[("id", .num 7), ("name", .str "Ada")]]⟩ "7").sent =
      [.okData [("id", .num 7), ("name", .str "Ada")]] := by decide

example :
    (deleteStudent1 ⟨some [[("id", .str "1")]]⟩ "1").disk = ⟨some []⟩ := by decide

example :
    Obj.get (Obj.spread [("a", .num 1), ("b", .num 2)] [("b", .num 9), ("c", .num 3)]) "b"
      = some (.num 9) := by decide

/-- Filtering with a predicate that keeps every entry of key `k` does not
change the first-match lookup for `k`. -/
theorem find?_filter_of_key (b : Obj) (k : String) (φ : String × Value → Bool)
    (hφ : ∀ p : String × Value, p.1 = k → φ p = true) :
    (b.filter φ).find? (fun p => p.1 == k) = b.find? (fun p => p.1 == k) := by
  induction b with
  | nil => rfl
  | cons p t ih =>
    cases hk : (p.1 == k) with
    | true =>
      have hp : φ p = true := hφ p (by simpa using hk)
      simp [List.filter_cons, hp, List.find?_cons, hk]
    | false =>
      cases hp : φ p
      · simp [List.filter_cons, hp, List.find?_cons, hk, ih]
      · simp [List.filter_cons, hp, List.find?_cons, hk, ih]

/-- First-match lookup through a key-preserving map. -/
theorem find?_map_key (a : Obj) (f : String × Value → Value) (k : String) :
    (a.map (fun p => (p.1, f p))).find? (fun p => p.1 == k)
      = (a.find? (fun p => p.1 == k)).map (fun p => (p.1, f p)) := by
  induction a with
  | nil => rfl
  | cons p t ih =>
    cases hk : (p.1 == k) <;> simp [List.find?_cons, hk, ih]

/-- Lookup through a spread: the entries of `b` win, `a` is the fallback. -/
theorem Obj.get_spread (a b : Obj) (k : String) :
    Obj.get (Obj.spread a b) k = (Obj.get b k).or (Obj.get a k) := by
  have hkeep : ∀ p : String × Value, p.1 = k → Obj.hasKey a k = false →
      (!(Obj.hasKey a p.1)) = true := by
    intro p hp hnone
    rw [hp, hnone]
    rfl
  cases ha : a.find? (fun p => p.1 == k) with
  | none =>
    have hkey : Obj.hasKey a k = false := by simp [Obj.hasKey, ha]
    have hga : Obj.get a k = none := by simp [Obj.get, ha]
    have hL : Obj.get (Obj.spread a b) k = Obj.get b k := by
      show ((a.map (fun p => (p.1, (Obj.get b p.1).getD p.2)) ++
          b.filter (fun p => !(Obj.hasKey a p.1))).find?
            (fun p => p.1 == k)).map (fun p => p.2) = _
      rw [List.find?_append, find?_map_key, ha,
        find?_filter_of_key b k _ (fun p hp => hkeep p hp hkey)]
      rfl
    rw [hL, hga, Option.or_none]
  | some q =>
    have hq : q.1 = k := by simpa using List.find?_some ha
    have hga : Obj.get a k = some q.2 := by simp [Obj.get, ha]
    have hL : Obj.get (Obj.spread a b) k = some ((Obj.get b k).getD q.2) := by
      show ((a.map (fun p => (p.1, (Obj.get b p.1).getD p.2)) ++
          b.filter (fun p => !(Obj.hasKey a p.1))).find?
            (fun p => p.1 == k)).map (fun p => p.2) = _
      rw [List.find?_append, find?_map_key, ha]
      simp only [Option.map_some', Option.or_some]
      rw [hq]
    rw [hL, hga]
    cases hb : Obj.get b k with
    | none => rw [Option.none_or, Option.getD]
    | some w => rw [Option.or_some, Option.getD]

/-- Lookup of the explicitly set key. -/
theorem Obj.get_setKey_self (o : Obj) (k : String) (v : Value) :
    Obj.get (Obj.setKey o k v) k = some v := by
  rw [Obj.setKey, Obj.get_spread]
  have : Obj.get [(k, v)] k = some v := by simp [Obj.get]
  rw [this, Option.or_some]

/-- Lookup of any other key passes through an explicit set. -/
theorem Obj.get_setKey_of_ne (o : Obj) (k k' : String) (v : Value) (h : ¬ k' = k) :
    Obj.get (Obj.setKey o k v) k' = Obj.get o k' := by
  rw [Obj.setKey, Obj.get_spread]
  have hone : Obj.get [(k, v)] k' = none := by
    have : (k == k') = false := by
      simp
      intro hkk
      exact h hkk.symm
    simp [Obj.get, List.find?, this]
  rw [hone, Option.none_or]

/-- C10: when the loaded document has no students key, the list operation
substitutes the empty array and answers 200 with count 0, while get-by-id,
update and delete (first variant, as in the second) dereference the missing
array and answer 500 rather than 404, with no store change. -/
theorem C10_missing_students_key (id : String) (changes : Obj) (now : String) :
    listStudents ⟨none⟩ = ⟨[.okList 0 []], ⟨none⟩, 1, 0⟩ ∧
    (listStudents ⟨none⟩).sent.map Resp.status = [200] ∧
    getById ⟨none⟩ id = ⟨[.serverError "Error retrieving student"], ⟨none⟩, 1, 0⟩ ∧
    updateStudent1 ⟨none⟩ id changes now
      = ⟨[.serverError "Error updating students"], ⟨none⟩, 1, 0⟩ ∧
    deleteStudent1 ⟨none⟩ id = ⟨[.serverError "Error deleting resource"], ⟨none⟩, 1, 0⟩ ∧
    (getById ⟨none⟩ id).sent.map Resp.status = [500] ∧
    (updateStudent1 ⟨none⟩ id changes now).sent.map Resp.status = [500] ∧
    (deleteStudent1 ⟨none⟩ id).sent.map Resp.status = [500] :=
  ⟨rfl, rfl, rfl, rfl, rfl, rfl, rfl, rfl⟩

/-- C1: at a store holding the single student with id "1", the first delete
variant persists the removal but answers the 500 catch body (its success
response reads the unbound name `deletedItem`), so it does not respond 200
with the removed entity; the second variant does. -/
theorem C1_delete1_responds_500_despite_removal :
    deleteStudent1 ⟨some [[("id", .str "1"), ("name", .str "Ada"), ("email", .str "a@x.com")]]⟩ "1"
      = ⟨[.serverError "Error deleting resource"], ⟨some []⟩, 1, 1⟩ ∧
    (deleteStudent1 ⟨some [[("id", .str "1"), ("name", .str "Ada"),
        ("email", .str "a@x.com")]]⟩ "1").sent.map Resp.status = [500] ∧
    (deleteStudent2 ⟨some [[("id", .str "1"), ("name", .str "Ada"),
        ("email", .str "a@x.com")]]⟩ "1").sent
      = [.okData [("id", .str "1"), ("name", .str "Ada"), ("email", .str "a@x.com")]] := by
  refine ⟨by decide, by decide, by decide⟩

/-- C5: a get-by-id request reloads the store once, linearly searches for the
first entry whose id matches under string normalisation (a stored numeric id
matches the requested path string when their string forms agree), answers
200 with the found entity or 404 when no entry matches, and never mutates
the store. -/
theorem C5_getById_contract (db : DB) (id : String) (l : List Obj)
    (hl : db.students? = some l) :
    (getById db id).reads = 1 ∧
    (getById db id).writes = 0 ∧
    (getById db id).disk = db ∧
    (getById db id).sent =
      (match l.find? (fun s => matchesId s id) with
        | some s => [Resp.okData s]
        | none => [Resp.notFound "Student not found"]) ∧
    (∀ s : Obj, ∀ n : Int, Obj.get s "id" = some (Value.num n) →
      matchesId s (toString n) = true) := by
  have hmain : (getById db id).reads = 1 ∧ (getById db id).writes = 0 ∧
      (getById db id).disk = db ∧
      (getById db id).sent =
        (match l.find? (fun s => matchesId s id) with
          | some s => [Resp.okData s]
          | none => [Resp.notFound "Student not found"]) := by
    cases hfind : l.find? (fun s => matchesId s id) with
    | none =>
      have h : getById db id = ⟨[Resp.notFound "Student not found"], db, 1, 0⟩ := by
        simp only [getById, hl, hfind]
      rw [h]
      exact ⟨rfl, rfl, rfl, rfl⟩
    | some s =>
      have h : getById db id = ⟨[Resp.okData s], db, 1, 0⟩ := by
        simp only [getById, hl, hfind]
      rw [h]
      exact ⟨rfl, rfl, rfl, rfl⟩
  refine ⟨hmain.1, hmain.2.1, hmain.2.2.1, hmain.2.2.2, ?_⟩
  intro s n hs
  unfold matchesId jsStringOfOpt
  rw [hs]
  simp [Value.toJsString]

theorem C5_getById_contract_w :
    (getById ⟨some [[("id", .num 7), ("name", .str "Ada")]]⟩ "7").sent
      = [.okData [("id", .num 7), ("name", .str "Ada")]] ∧
    (getById ⟨some [[("id", .num 7), ("name", .str "Ada")]]⟩ "8").sent
      = [.notFound "Student not found"] ∧
    (getById ⟨some [[("id", .num 7), ("name", .str "Ada")]]⟩ "7").disk
      = ⟨some [[("id", .num 7), ("name", .str "Ada")]]⟩ := by
  refine ⟨?_, ?_, ?_⟩
  · rw [(C5_getById_contract ⟨some [[("id", .num 7), ("name", .str "Ada")]]⟩ "7" _ rfl).2.2.2.1]
    decide
  · rw [(C5_getById_contract ⟨some [[("id", .num 7), ("name", .str "Ada")]]⟩ "8" _ rfl).2.2.2.1]
    decide
  · exact (C5_getById_contract ⟨some [[("id", .num 7), ("name", .str "Ada")]]⟩ "7" _ rfl).2.2.1

/-- C6: an update or delete request whose id matches no student answers 404
and leaves the store document exactly unchanged with no flush, in both
variants of each handler. -/
theorem C6_update_delete_absent (db : DB) (id : String) (changes : Obj) (now : String)
    (l : List Obj)
    (hl : db.students? = some l)
    (habs : ∀ s ∈ l, matchesId s id = false) :
    updateStudent1 db id changes now = ⟨[.notFound "Student not found"], db, 1, 0⟩ ∧
    updateStudent2 db id changes now = ⟨[.notFound "Student not found"], db, 1, 0⟩ ∧
    deleteStudent1 db id = ⟨[.notFound "Student not found"], db, 1, 0⟩ ∧
    deleteStudent2 db id = ⟨[.notFound "Student not found"], db, 1, 0⟩ := by
  have hidx : l.findIdx? (fun s => matchesId s id) = none :=
    List.findIdx?_eq_none_iff.mpr habs
  simp [updateStudent1, updateStudent2, deleteStudent1, deleteStudent2, hl, hidx]

theorem C6_update_delete_absent_w :
    updateStudent1 ⟨some [[("id", .str "1")]]⟩ "2" [("name", .str "Bob")] "T"
      = ⟨[.notFound "Student not found"], ⟨some [[("id", .str "1")]]⟩, 1, 0⟩ ∧
    deleteStudent2 ⟨some [[("id", .str "1")]]⟩ "2"
      = ⟨[.notFound "Student not found"], ⟨some [[("id", .str "1")]]⟩, 1, 0⟩ :=
  ⟨(C6_update_delete_absent ⟨some [[("id", .str "1")]]⟩ "2" [("name", .str "Bob")] "T" _
      rfl (by decide)).1,
   (C6_update_delete_absent ⟨some [[("id", .str "1")]]⟩ "2" [("name", .str "Bob")] "T" _
      rfl (by decide)).2.2.2⟩

/-- C3: a create request whose name or email is absent or the empty string
answers 400 with the validation message, performs no datastore read and no
flush of any kind, and leaves the store document unchanged, in both
variants. -/
theorem C3_create_validation (db : DB) (body : Obj) (uuid now : String)
    (h : Obj.get body "name" = none ∨ Obj.get body "name" = some (Value.str "") ∨
         Obj.get body "email" = none ∨ Obj.get body "email" = some (Value.str "")) :
    createStudent1 db body uuid now
      = ⟨[.badRequest "Name and email are required"], db, 0, 0⟩ ∧
    createStudent2 db body uuid now
      = ⟨[.badRequest "Name and email are required"], db, 0, 0⟩ := by
  cases hn : Obj.get body "name" with
  | none => simp [createStudent1, createStudent2, hn]
  | some nv =>
    cases he : Obj.get body "email" with
    | none => simp [createStudent1, createStudent2, hn, he]
    | some ev =>
      have hfalse : (nv.truthy && ev.truthy) = false := by
        rcases h with h | h | h | h
        · rw [hn] at h
          exact Option.noConfusion h
        · rw [hn] at h
          cases Option.some.inj h
          rfl
        · rw [he] at h
          exact Option.noConfusion h
        · rw [he] at h
          cases Option.some.inj h
          simp [Value.truthy]
      simp [createStudent1, createStudent2, hn, he, hfalse]

theorem C3_create_validation_w :
    createStudent1 ⟨some [[("id", .str "1")]]⟩ [("name", .str "Ada")] "u" "T"
      = ⟨[.badRequest "Name and email are required"], ⟨some [[("id", .str "1")]]⟩, 0, 0⟩ ∧
    createStudent2 ⟨some [[("id", .str "1")]]⟩ [("name", .str "Ada"), ("email", .str "")]
        "u" "T"
      = ⟨[.badRequest "Name and email are required"], ⟨some [[("id", .str "1")]]⟩, 0, 0⟩ :=
  ⟨(C3_create_validation ⟨some [[("id", .str "1")]]⟩ [("name", .str "Ada")] "u" "T"
      (by decide)).1,
   (C3_create_validation ⟨some [[("id", .str "1")]]⟩
      [("name", .str "Ada"), ("email", .str "")] "u" "T" (by decide)).2⟩

/-- C2 counterexample: updating the student whose stored id is "1" with the
payload {id:"999"} persists an entity whose id field is "999", different
from the identifier the entity had before the update, so the payload does
override the identifier. -/
theorem C2_payload_id_overrides_cx :
    (updateStudent1 ⟨some [[("id", Value.str "1"), ("name", Value.str "Ada")]]⟩ "1"
        [("id", Value.str "999")] "T").disk
      = ⟨some [[("id", Value.str "999"), ("name", Value.str "Ada"),
          ("updatedAt", Value.str "T")]]⟩ ∧
    ¬ Obj.get [("id", Value.str "999"), ("name", Value.str "Ada"),
          ("updatedAt", Value.str "T")] "id"
      = Obj.get [("id", Value.str "1"), ("name", Value.str "Ada")] "id" :=
  ⟨by decide, by decide⟩

/-- C2 amended: after an update on an existing student, the stored
identifier equals the prior identifier whenever the payload carries no id
key; when the payload carries an id entry, that payload value becomes the
stored identifier (the code applies the payload over the old fields without
guarding id). -/
theorem C2_update_id (db : DB) (id : String) (changes : Obj) (now : String)
    (l : List Obj) (i : Nat) (old : Obj)
    (hl : db.students? = some l)
    (hi : l.findIdx? (fun s => matchesId s id) = some i)
    (hold : old = (l[i]?).getD []) :
    (updateStudent1 db id changes now).disk
      = ⟨some (l.set i (Obj.setKey (Obj.spread old changes) "updatedAt" (Value.str now)))⟩ ∧
    (updateStudent2 db id changes now).disk
      = ⟨some (l.set i (Obj.setKey (Obj.spread old changes) "updatedAt" (Value.str now)))⟩ ∧
    (Obj.get changes "id" = none →
      Obj.get (Obj.setKey (Obj.spread old changes) "updatedAt" (Value.str now)) "id"
        = Obj.get old "id") ∧
    (∀ v, Obj.get changes "id" = some v →
      Obj.get (Obj.setKey (Obj.spread old changes) "updatedAt" (Value.str now)) "id"
        = some v) := by
  subst hold
  refine ⟨?_, ?_, ?_, ?_⟩
  · simp only [updateStudent1, hl, hi]
  · simp only [updateStudent2, hl, hi]
  · intro hnone
    rw [Obj.get_setKey_of_ne _ _ _ _ (by decide), Obj.get_spread, hnone, Option.none_or]
  · intro v hv
    rw [Obj.get_setKey_of_ne _ _ _ _ (by decide), Obj.get_spread, hv, Option.or_some]

theorem C2_update_id_w :
    (updateStudent1 ⟨some [[("id", .str "1"), ("name", .str "Ada")]]⟩ "1"
        [("name", .str "Bob")] "T").disk
      = ⟨some [[("id", .str "1"), ("name", .str "Bob"), ("updatedAt", .str "T")]]⟩ := by
  have h := (C2_update_id ⟨some [[("id", .str "1"), ("name", .str "Ada")]]⟩ "1"
    [("name", .str "Bob")] "T" [[("id", .str "1"), ("name", .str "Ada")]] 0
    ([("id", .str "1"), ("name", .str "Ada")]) rfl (by decide) rfl).1
  exact h.trans (by decide)

/-- C7: updating an existing student stores and returns, with exactly one
flush, the shallow merge of the prior entity with the payload in which
payload entries win on every key except updatedAt, which the server sets to
the fresh timestamp; both variants agree. -/
theorem C7_update_merge (db : DB) (id : String) (changes : Obj) (now : String)
    (l : List Obj) (i : Nat) (old merged : Obj)
    (hl : db.students? = some l)
    (hi : l.findIdx? (fun s => matchesId s id) = some i)
    (hold : old = (l[i]?).getD [])
    (hm : merged = Obj.setKey (Obj.spread old changes) "updatedAt" (Value.str now)) :
    updateStudent1 db id changes now
      = ⟨[.okData merged], ⟨some (l.set i merged)⟩, 1, 1⟩ ∧
    updateStudent2 db id changes now
      = ⟨[.okData merged], ⟨some (l.set i merged)⟩, 1, 1⟩ ∧
    Obj.get merged "updatedAt" = some (Value.str now) ∧
    (∀ k, ¬ k = "updatedAt" →
      Obj.get merged k = (Obj.get changes k).or (Obj.get old k)) := by
  subst hold
  subst hm
  refine ⟨?_, ?_, Obj.get_setKey_self _ _ _, ?_⟩
  · simp only [updateStudent1, hl, hi]
  · simp only [updateStudent2, hl, hi]
  · intro k hk
    rw [Obj.get_setKey_of_ne _ _ _ _ hk, Obj.get_spread]

theorem C7_update_merge_w :
    updateStudent2 ⟨some [[("id", .str "1"), ("name", .str "Ada"),
        ("email", .str "old@x.com")]]⟩ "1" [("email", .str "new@x.com")] "T"
      = ⟨[.okData [("id", .str "1"), ("name", .str "Ada"), ("email", .str "new@x.com"),
            ("updatedAt", .str "T")]],
          ⟨some [[("id", .str "1"), ("name", .str "Ada"), ("email", .str "new@x.com"),
            ("updatedAt", .str "T")]]⟩, 1, 1⟩ := by
  have h := (C7_update_merge ⟨some [[("id", .str "1"), ("name", .str "Ada"),
      ("email", .str "old@x.com")]]⟩ "1" [("email", .str "new@x.com")] "T"
      [[("id", .str "1"), ("name", .str "Ada"), ("email", .str "old@x.com")]] 0
      ([("id", .str "1"), ("name", .str "Ada"), ("email", .str "old@x.com")])
      (Obj.setKey (Obj.spread [("id", .str "1"), ("name", .str "Ada"),
        ("email", .str "old@x.com")] [("email", .str "new@x.com")]) "updatedAt"
        (Value.str "T"))
      rfl (by decide) rfl rfl).2.1
  exact h.trans (by decide)

/-- C9: the stored updatedAt after an update on an existing student is the
server timestamp for every payload, including payloads carrying their own
updatedAt entry, because the server field is applied after the payload in
the merge; a caller can never choose updatedAt. -/
theorem C9_updatedAt_server_owned (db : DB) (id : String) (changes : Obj) (now : String)
    (l : List Obj) (i : Nat)
    (hl : db.students? = some l)
    (hi : l.findIdx? (fun s => matchesId s id) = some i) :
    (updateStudent1 db id changes now).disk
      = ⟨some (l.set i (Obj.setKey (Obj.spread ((l[i]?).getD []) changes) "updatedAt"
          (Value.str now)))⟩ ∧
    (updateStudent2 db id changes now).disk
      = ⟨some (l.set i (Obj.setKey (Obj.spread ((l[i]?).getD []) changes) "updatedAt"
          (Value.str now)))⟩ ∧
    Obj.get (Obj.setKey (Obj.spread ((l[i]?).getD []) changes) "updatedAt" (Value.str now))
        "updatedAt"
      = some (Value.str now) := by
  refine ⟨?_, ?_, Obj.get_setKey_self _ _ _⟩
  · simp only [updateStudent1, hl, hi]
  · simp only [updateStudent2, hl, hi]

theorem C9_updatedAt_server_owned_w :
    (updateStudent1 ⟨some [[("id", .str "1")]]⟩ "1" [("updatedAt", .str "HACK")] "T").disk
      = ⟨some [[("id", .str "1"), ("updatedAt", .str "T")]]⟩ := by
  have h := (C9_updatedAt_server_owned ⟨some [[("id", .str "1")]]⟩ "1"
    [("updatedAt", .str "HACK")] "T" [[("id", .str "1")]] 0 rfl (by decide)).1
  exact h.trans (by decide)

/-- C4 counterexample: creating with the payload {name, email, age:30}
succeeds, but the created entity carries no age field: payload fields other
than name and email are not merged into the new entity, in either variant. -/
theorem C4_extra_fields_dropped_cx :
    (createStudent2 ⟨some []⟩
        [("name", .str "Ada"), ("email", .str "a@x.com"), ("age", .num 30)] "u1" "T").sent
      = [.created [("id", .str "u1"), ("name", .str "Ada"), ("email", .str "a@x.com"),
          ("createdAt", .str "T")]] ∧
    (createStudent1 ⟨some []⟩
        [("name", .str "Ada"), ("email", .str "a@x.com"), ("age", .num 30)] "u1" "T").sent
      = [.created [("id", .str "u1"), ("name", .str "Ada"), ("email", .str "a@x.com"),
          ("createdAt", .str "T")]] ∧
    Obj.get [("id", .str "u1"), ("name", .str "Ada"), ("email", .str "a@x.com"),
        ("createdAt", .str "T")] "age" = none :=
  ⟨by decide, by decide, by decide⟩

/-- C4 amended: a create request with truthy name and email builds the
entity {id, name, email, createdAt} from the fresh identifier, the two
caller-supplied fields and the fresh timestamp (payload fields other than
name and email are discarded), appends it at the end of the collection as
the only mutation with a single flush and no read, and answers 201 with it;
both variants agree. -/
theorem C4_create_appends (db : DB) (body : Obj) (uuid now : String)
    (l : List Obj) (nv ev : Value)
    (hl : db.students? = some l)
    (hn : Obj.get body "name" = some nv) (hnt : nv.truthy = true)
    (he : Obj.get body "email" = some ev) (het : ev.truthy = true) :
    createStudent1 db body uuid now
      = ⟨[.created [("id", .str uuid), ("name", nv), ("email", ev), ("createdAt", .str now)]],
          ⟨some (l ++ [[("id", .str uuid), ("name", nv), ("email", ev),
            ("createdAt", .str now)]])⟩, 0, 1⟩ ∧
    createStudent2 db body uuid now
      = ⟨[.created [("id", .str uuid), ("name", nv), ("email", ev), ("createdAt", .str now)]],
          ⟨some (l ++ [[("id", .str uuid), ("name", nv), ("email", ev),
            ("createdAt", .str now)]])⟩, 0, 1⟩ := by
  constructor
  · simp [createStudent1, hl, hn, he, hnt, het]
  · simp [createStudent2, hl, hn, he, hnt, het]

theorem C4_create_appends_w :
    createStudent1 ⟨some [[("id", .str "0")]]⟩
        [("name", .str "Ada"), ("email", .str "a@x.com")] "u1" "T"
      = ⟨[.created [("id", .str "u1"), ("name", .str "Ada"), ("email", .str "a@x.com"),
            ("createdAt", .str "T")]],
          ⟨some [[("id", .str "0")], [("id", .str "u1"), ("name", .str "Ada"),
            ("email", .str "a@x.com"), ("createdAt", .str "T")]]⟩, 0, 1⟩ := by
  have h := (C4_create_appends ⟨some [[("id", .str "0")]]⟩
    [("name", .str "Ada"), ("email", .str "a@x.com")] "u1" "T" [[("id", .str "0")]]
    (.str "Ada") (.str "a@x.com") rfl (by decide) (by decide) (by decide) (by decide)).1
  exact h.trans (by decide)

/-- C8: deleting an existing student removes exactly the first matching
entry: the persisted collection is the original with that index erased, its
length is one less, the remaining entries keep their relative order (the
result is a sublist of the original), the erased entry matches the id and no
earlier entry does; both variants persist the same removal. -/
theorem C8_delete_removes_one (db : DB) (id : String) (l : List Obj) (i : Nat)
    (hl : db.students? = some l)
    (hi : l.findIdx? (fun s => matchesId s id) = some i) :
    (deleteStudent1 db id).disk = ⟨some (l.eraseIdx i)⟩ ∧
    (deleteStudent2 db id).disk = ⟨some (l.eraseIdx i)⟩ ∧
    (l.eraseIdx i).length + 1 = l.length ∧
    (l.eraseIdx i).Sublist l ∧
    ∃ h : i < l.length, matchesId (l.get ⟨i, h⟩) id = true ∧
      ∀ j (hj : j < i), matchesId (l.get ⟨j, Nat.lt_trans hj h⟩) id = false := by
  obtain ⟨hlen, hmatch, hbefore⟩ := List.findIdx?_eq_some_iff_getElem.mp hi
  refine ⟨?_, ?_, ?_, List.eraseIdx_sublist l i, ⟨hlen, ?_, ?_⟩⟩
  · simp only [deleteStudent1, hl, hi]
  · simp only [deleteStudent2, hl, hi]
  · rw [List.length_eraseIdx_of_lt hlen]
    omega
  · simpa using hmatch
  · intro j hj
    have hj' := hbefore j hj
    simpa using hj'

theorem C8_delete_removes_one_w :
    (deleteStudent2 ⟨some [[("id", .str "1")], [("id", .str "2")]]⟩ "1").disk
      = ⟨some [[("id", .str "2")]]⟩ ∧
    (deleteStudent1 ⟨some [[("id", .str "1")], [("id", .str "2")]]⟩ "1").disk
      = ⟨some [[("id", .str "2")]]⟩ := by
  have h := C8_delete_removes_one ⟨some [[("id", .str "1")], [("id", .str "2")]]⟩ "1"
    [[("id", .str "1")], [("id", .str "2")]] 0 rfl (by decide)
  exact ⟨h.2.1.trans (by decide), h.1.trans (by decide)⟩
